import Mathlib

/-
Verification of the service-orchestration helper
`src/scripts/ensure_services_operated.py` (class `ServiceManager` and `main`).

Shallow embedding conventions:
* Python dicts with string keys are association lists in insertion order;
  `dinsert` overwrites an existing binding in place, `dlookup` finds it.
* `subprocess.run` is abstracted by `ProcBehavior`: either the process runs to
  completion with an exit code and (would-be captured) stdout/stderr strings,
  or spawning raises an exception with a message.  `run_command` translates
  `ServiceManager.run_command` over that abstraction; Python `None` is `none`.
* The output of `docker compose ps --format json` is abstracted per line by
  `JsonLine`: a whitespace-only line, a line on which `json.loads` raises
  `JSONDecodeError`, a line parsing to a non-object JSON value (on which
  `container.get` raises `AttributeError`, caught only by the outer handler,
  so the loop over the remaining lines is aborted), or a JSON object whose
  string-valued fields are given as an association list.
* The output of the plain `docker compose ps` is kept as genuine strings
  (the list of lines of `stdout.strip().split(chr 10)`), and Python
  `line.split()` / substring containment / `str.lower` are implemented as
  `pySplit` / `pyIn` / `pyLower` (ASCII case folding, which agrees with
  Python on all the ASCII state words involved).
* External effects are recorded as a `List Call` trace alongside results, so
  that claims of the form "returns false without invoking the tool" are
  statements about the trace.
-/

namespace EnsureServices

/-- Python dict insert: overwrite the binding for `k` in place if present,
otherwise append at the end (insertion order preserved). -/
def dinsert : List (String × String) → String → String → List (String × String)
  | [], k, v => [(k, v)]
  | p :: t, k, v => if p.1 = k then (k, v) :: t else p :: dinsert t k v

/-- Python dict lookup (`d[k]` / `k in d`): first (unique) binding for `k`. -/
def dlookup : List (String × String) → String → Option String
  | [], _ => none
  | p :: t, k => if p.1 = k then some p.2 else dlookup t k

/-- Substring test on character lists: does `n` occur contiguously in the
second list?  (`n.isEmpty` at the end makes the empty needle always found,
as in Python.) -/
def listSubstr (n : List Char) : List Char → Bool
  | [] => n.isEmpty
  | c :: t => n.isPrefixOf (c :: t) || listSubstr n t

/-- Python `needle in hay` on strings. -/
def pyIn (needle hay : String) : Bool :=
  listSubstr needle.toList hay.toList

/-- Python `str.lower()` (ASCII case folding, sufficient for the state words
`Up` / `Running` / `Started` / `Exited` that the script compares). -/
def pyLower (s : String) : String :=
  String.mk (s.toList.map Char.toLower)

/-- Accumulating worker for `pySplit`: `acc` holds the characters of the
current token, in reverse. -/
def splitWsAux : List Char → List Char → List String
  | [], acc => if acc.isEmpty then [] else [String.mk acc.reverse]
  | c :: t, acc =>
      if c.isWhitespace then
        if acc.isEmpty then splitWsAux t []
        else String.mk acc.reverse :: splitWsAux t []
      else splitWsAux t (c :: acc)

/-- Python `str.split()` with no argument: split on whitespace runs and drop
empty pieces. -/
def pySplit (s : String) : List String :=
  splitWsAux s.toList []

/-- `self.services`: registry key -> display name, in insertion order. -/
def services : List (String × String) :=
  [("page-server", "Page Server (Next.js)"),
   ("api-server", "API Server (FastAPI)"),
   ("db-server", "Database Server (PostgreSQL)"),
   ("nginx", "Nginx (Reverse Proxy)"),
   ("redis", "Redis (Cache)")]

/-- `self.service_mapping`: container name -> registry key. -/
def service_mapping : List (String × String) :=
  [("servers-page-server-1", "page-server"),
   ("servers-api-server-1", "api-server"),
   ("servers-db-server-1", "db-server"),
   ("servers-nginx-1", "nginx"),
   ("servers-redis-1", "redis")]

/-- The key the text fallback stores for a container name: the alias from
`service_mapping` when present, otherwise the container name verbatim. -/
def aliasKey (name : String) : String :=
  (dlookup service_mapping name).getD name

/-- `any(status_word in line for status_word in ['Up', 'Running', 'Started'])`. -/
def lineUp (line : String) : Bool :=
  (["Up", "Running", "Started"]).any (fun w => pyIn w line)

/-- `any(running_state in state.lower() for running_state in ['up', 'running', 'started'])`. -/
def isRunningState (state : String) : Bool :=
  (["up", "running", "started"]).any (fun w => pyIn w (pyLower state))

/-- Abstraction of one `subprocess.run(command, shell=True, ...)` call:
either the shell process runs to completion (with the exit code and the
stdout/stderr text it would produce if captured), or spawning raises an
exception whose `str` is `msg`. -/
inductive ProcBehavior where
  | runs (rc : Int) (out err : String)
  | raises (msg : String)
deriving DecidableEq

/-- `ServiceManager.run_command` (lines 81-101): returns
`(returncode, stdout, stderr)`.  `none` models Python `None` (the value of
`result.stdout` / `result.stderr` when `capture_output` is false).  On
`CalledProcessError` (raised iff `chk` and nonzero exit) the fields go
through `e.stdout or ""`; on any other exception the result is
`(-1, "", str(e))`. -/
def run_command (b : ProcBehavior) (chk capture : Bool) :
    Int × Option String × Option String :=
  match b with
  | ProcBehavior.raises msg => (-1, some "", some msg)
  | ProcBehavior.runs rc out err =>
      if chk && !(rc == 0) then
        (rc, some (if capture then out else ""), some (if capture then err else ""))
      else
        (rc, if capture then some out else none, if capture then some err else none)

/-- Abstraction of one line of `docker compose ps --format json` output, by
what `json.loads(line.strip())` does to it (see the header comment). -/
inductive JsonLine where
  | blank
  | parseError
  | nonObject
  | object (fields : List (String × String))
deriving DecidableEq

/-- `container.get(k, '')` on a parsed JSON object. -/
def fget (fs : List (String × String)) (k : String) : String :=
  (dlookup fs k).getD ""

/-- The structured (JSON-lines) pass of `get_service_status` (lines 200-214):
blank lines and `JSONDecodeError` lines are skipped by the inner handler;
a line parsing to a non-object value raises `AttributeError` on `.get`,
which only the handler outside the loop catches, so the remaining lines are
dropped and the entries accumulated so far are kept; an object line with a
non-empty `Service` field stores `Service -> State` (with `State` defaulting
to the empty string). -/
def jsonPass : List JsonLine → List (String × String) → List (String × String)
  | [], st => st
  | JsonLine.blank :: rest, st => jsonPass rest st
  | JsonLine.parseError :: rest, st => jsonPass rest st
  | JsonLine.nonObject :: _, st => st
  | JsonLine.object fs :: rest, st =>
      jsonPass rest
        (if fget fs "Service" = "" then st
         else dinsert st (fget fs "Service") (fget fs "State"))

/-- The structured pass as the spec sentence describes it (for comparison
with `jsonPass`): every line is handled independently, a line that does not
parse to a usable object is simply skipped, and an object line with a
non-empty `Service` field contributes `Service -> State`. -/
def jsonPassIndep : List JsonLine → List (String × String) → List (String × String)
  | [], st => st
  | JsonLine.blank :: rest, st => jsonPassIndep rest st
  | JsonLine.parseError :: rest, st => jsonPassIndep rest st
  | JsonLine.nonObject :: rest, st => jsonPassIndep rest st
  | JsonLine.object fs :: rest, st =>
      jsonPassIndep rest
        (if fget fs "Service" = "" then st
         else dinsert st (fget fs "Service") (fget fs "State"))

/-- One non-header line of the text fallback of `get_service_status`
(lines 224-238): skip unless the line splits into at least two whitespace
tokens; the first token is the container name; if any of `Up` / `Running` /
`Started` occurs anywhere in the line, store `"Up"` under the alias of the
container name (or the name itself when unmapped). -/
def textStep (st : List (String × String)) (line : String) :
    List (String × String) :=
  match pySplit line with
  | name :: _ :: _ =>
      if lineUp line then
        match dlookup service_mapping name with
        | some mapped => dinsert st mapped "Up"
        | none => dinsert st name "Up"
      else st
  | _ => st

/-- The fallback line handling as the claim words it (no minimum token
count): the first whitespace token of any non-header line is the container
name, and the presence of `Up` / `Running` / `Started` anywhere in the line
yields an entry for it. -/
def textStepSpec (st : List (String × String)) (line : String) :
    List (String × String) :=
  match pySplit line with
  | name :: _ =>
      if lineUp line then
        match dlookup service_mapping name with
        | some mapped => dinsert st mapped "Up"
        | none => dinsert st name "Up"
      else st
  | [] => st

/-- Outcome of `sock.connect_ex(('localhost', port))` inside `test_services`:
either the returned code (0 = connected) or an exception message. -/
inductive PortResult where
  | code (r : Int)
  | exn (msg : String)
deriving DecidableEq

/-- One recorded external effect. -/
inductive Call where
  | envCheck
  | build (s : String)
  | up (s : String)
  | stop (s : String)
  | status
  | portProbe (p : Nat) (r : PortResult)
  | down
  | logs
  | menu
deriving DecidableEq

/-- The fixed world one run of the script sees: the compose file path, the
behavior of every shell command, the abstracted output of the two `ps`
invocations, whether the required files exist, the port-probe outcomes, and
whether the compose file exists. -/
structure Env where
  composeFile : String
  proc : String → ProcBehavior
  psJsonRc : Int
  psJsonLines : List JsonLine
  psTextRc : Int
  psTextLines : List String
  filesOk : Bool
  portResult : Nat → PortResult
  composeFileExists : Bool

/-- A quiescent world: every command exits 0 with empty output, both `ps`
invocations succeed with empty output, all required files exist, every port
probe connects. -/
def baseEnv : Env :=
  { composeFile := "servers/docker-compose.dev.yml"
  , proc := fun _ => ProcBehavior.runs 0 "" ""
  , psJsonRc := 0
  , psJsonLines := []
  , psTextRc := 0
  , psTextLines := []
  , filesOk := true
  , portResult := fun _ => PortResult.code 0
  , composeFileExists := true }

/-- The structured part of `get_service_status` (lines 194-214): attempted
only when the JSON `ps` invocation exits 0 (an empty output yields no
entries either way). -/
def structuredStatus (env : Env) : List (String × String) :=
  if env.psJsonRc = 0 then jsonPass env.psJsonLines [] else []

/-- The text-fallback part of `get_service_status` (lines 218-238): drop the
header line, then process each remaining line with `textStep`. -/
def textStatus (env : Env) : List (String × String) :=
  if env.psTextRc = 0 then (env.psTextLines.drop 1).foldl textStep [] else []

/-- `ServiceManager.get_service_status` (lines 190-240): the structured pass
first; the plain-text fallback runs iff it produced zero entries. -/
def get_service_status (env : Env) : List (String × String) :=
  if structuredStatus env = [] then textStatus env else structuredStatus env

/-- One line of `ServiceManager.show_service_status` output (lines 248-257)
for a registered service `key` displayed as `disp`. -/
def renderService (st : List (String × String)) (key disp : String) : String :=
  match dlookup st key with
  | some state =>
      if isRunningState state then "✅ " ++ disp ++ ": " ++ state
      else "❌ " ++ disp ++ ": " ++ state
  | none => "⏸️ " ++ disp ++ ": 중지됨"

/-- `ServiceManager.show_service_status` (lines 242-258): the per-service
lines printed between the separators, one per registry entry in order. -/
def show_service_status (env : Env) : List String :=
  services.map (fun p => renderService (get_service_status env) p.1 p.2)

/-- `ServiceManager.build_service` (lines 130-143): shell out to
`docker compose ... build <service>`; true iff exit code 0. -/
def build_service (env : Env) (service : String) : Bool × List Call :=
  let r := run_command
    (env.proc ("docker compose -f " ++ env.composeFile ++ " build " ++ service))
    true false
  (r.1 == 0, [Call.build service])

/-- `ServiceManager.run_service` (lines 145-158): `up -d <service>`. -/
def run_service (env : Env) (service : String) : Bool × List Call :=
  let r := run_command
    (env.proc ("docker compose -f " ++ env.composeFile ++ " up -d " ++ service))
    true false
  (r.1 == 0, [Call.up service])

/-- `ServiceManager.stop_service` (lines 160-173): `stop <service>`. -/
def stop_service (env : Env) (service : String) : Bool × List Call :=
  let r := run_command
    (env.proc ("docker compose -f " ++ env.composeFile ++ " stop " ++ service))
    true false
  (r.1 == 0, [Call.stop service])

/-- `ServiceManager.test_basic_environment` (lines 335-371): the four file
existence tests (abstracted by `filesOk`), then `docker compose ... config`
with `check=False`; recorded as the single `envCheck` effect. -/
def test_basic_environment (env : Env) : Bool × List Call :=
  if env.filesOk then
    let r := run_command
      (env.proc ("docker compose -f " ++ env.composeFile ++ " config"))
      false false
    (r.1 == 0, [Call.envCheck])
  else (false, [Call.envCheck])

/-- The `all_running` flag of `test_services` (lines 383-389): every
registered service is present in the status mapping with a running state. -/
def allServicesRunning (env : Env) : Bool :=
  services.all (fun p =>
    match dlookup (get_service_status env) p.1 with
    | some st => isRunningState st
    | none => false)

/-- The fixed port table of `test_services` (lines 399-405), in insertion
order. -/
def portTable : List (Nat × String) :=
  [(80, "nginx"), (5173, "page-server"), (8002, "api-server"),
   (15432, "db-server (외부)"), (16379, "redis (외부)")]

/-- `ServiceManager.test_services` (lines 373-424): query status; if any
registered service is not running, return false at once (no port probes);
otherwise probe every port in the table (outcomes are only printed) and
return true. -/
def test_services (env : Env) : Bool × List Call :=
  if allServicesRunning env then
    (true, Call.status ::
      portTable.map (fun q => Call.portProbe q.1 (env.portResult q.1)))
  else (false, [Call.status])

/-- `ServiceManager.run_all_services` (lines 260-288). -/
def run_all_services (env : Env) : Bool × List Call :=
  let e := test_basic_environment env
  if e.1 = false then (false, e.2)
  else
    let b := build_service env ""
    if b.1 = false then (false, e.2 ++ b.2)
    else
      let u := run_service env ""
      if u.1 = false then (false, e.2 ++ b.2 ++ u.2)
      else
        let t := test_services env
        (true, e.2 ++ b.2 ++ u.2 ++ t.2)

/-- `ServiceManager.run_single_service` (lines 290-318): unknown keys are
rejected before anything runs. -/
def run_single_service (env : Env) (service : String) : Bool × List Call :=
  if (services.map Prod.fst).contains service then
    let e := test_basic_environment env
    if e.1 = false then (false, e.2)
    else
      let b := build_service env service
      if b.1 = false then (false, e.2 ++ b.2)
      else
        let u := run_service env service
        if u.1 = false then (false, e.2 ++ b.2 ++ u.2)
        else
          let t := test_services env
          (true, e.2 ++ b.2 ++ u.2 ++ t.2)
  else (false, [])

/-- `ServiceManager.stop_all_services` (lines 320-333). -/
def stop_all_services (env : Env) : Bool × List Call :=
  let r := run_command
    (env.proc ("docker compose -f " ++ env.composeFile ++ " down --remove-orphans"))
    true false
  (r.1 == 0, [Call.down])

/-- The error line of `show_logs` (line 440). -/
def logsErrorLine : String := "❌ 로그를 가져올 수 없습니다"

/-- The header line `show_logs` prints (lines 429, 432). -/
def logsHeader : Option String → String
  | some s => "📋 " ++ s ++ " 로그:"
  | none => "📋 전체 서비스 로그:"

/-- The command `show_logs` issues (lines 430, 433). -/
def logsCmd (env : Env) : Option String → String
  | some s => "docker compose -f " ++ env.composeFile ++ " logs --tail=20 " ++ s
  | none => "docker compose -f " ++ env.composeFile ++ " logs --tail=20"

/-- The `run_command` result `show_logs` sees (line 435, `capture_output=True`). -/
def logsResult (env : Env) (service : Option String) :
    Int × Option String × Option String :=
  run_command (env.proc (logsCmd env service)) true true

/-- `ServiceManager.show_logs` (lines 426-442): the issued command paired
with the printed lines.  The captured output is printed iff the exit code is
0 and stdout is non-empty; otherwise the error line, plus the stderr
diagnostic when stderr is non-empty. -/
def show_logs (env : Env) (service : Option String) : String × List String :=
  let r := logsResult env service
  let out := r.2.1.getD ""
  let err := r.2.2.getD ""
  let body :=
    if r.1 = 0 ∧ out ≠ "" then [out]
    else if err = "" then [logsErrorLine] else [logsErrorLine, "오류: " ++ err]
  (logsCmd env service, logsHeader service :: body)

/-- `ServiceManager.check_docker` (lines 103-120): `docker --version` then
`docker info`, both with `check=False`; true iff both exit 0. -/
def check_docker (env : Env) : Bool :=
  let v := run_command (env.proc "docker --version") false false
  if v.1 == 0 then
    let i := run_command (env.proc "docker info") false false
    i.1 == 0
  else false

/-- `ServiceManager.check_compose_file` (lines 122-128). -/
def check_compose_file (env : Env) : Bool :=
  env.composeFileExists

/-- The parsed command-line flags of `main` (lines 532-541). -/
structure Args where
  all : Bool := false
  pageServer : Bool := false
  apiServer : Bool := false
  dbServer : Bool := false
  nginx : Bool := false
  redis : Bool := false
  stop : Bool := false
  status : Bool := false
  logs : Bool := false

/-- The flag dispatch of `main` (lines 559-580); every workflow result is
discarded.  The interactive menu (no flag) is recorded as `menu`. -/
def dispatch (env : Env) (args : Args) : List Call :=
  if args.all then (run_all_services env).2
  else if args.pageServer then (run_single_service env "page-server").2
  else if args.apiServer then (run_single_service env "api-server").2
  else if args.dbServer then (run_single_service env "db-server").2
  else if args.nginx then (run_single_service env "nginx").2
  else if args.redis then (run_single_service env "redis").2
  else if args.stop then (stop_all_services env).2
  else if args.status then [Call.status]
  else if args.logs then [Call.logs]
  else [Call.menu]

/-- `main` (lines 517-580): process exit status paired with the trace.
`sys.exit(1)` fires iff one of the two pre-flight probes fails; otherwise
the selected workflow runs and the process falls off the end (exit 0). -/
def main (env : Env) (args : Args) : Int × List Call :=
  if check_docker env then
    if check_compose_file env then (0, dispatch env args)
    else (1, [])
  else (1, [])

/-- The port a trace element probes, if it is a probe. -/
def portOf : Call → Option Nat
  | Call.portProbe p _ => some p
  | _ => none

/-! ### Concrete worlds used by witnesses and counterexamples -/

/-- Structured status output whose middle line is valid non-object JSON
(for example the single-array form `[{...}]` that older orchestrator
versions emit, or a bare number): `json.loads` succeeds but `.get` raises. -/
def envC1 : Env := { baseEnv with
  psJsonLines := [JsonLine.object [("Service", "api-server"), ("State", "Up")],
                  JsonLine.nonObject,
                  JsonLine.object [("Service", "page-server"), ("State", "Up")]] }

/-- JSON `ps` fails; the text fallback sees a header plus the one-token line
`Up`. -/
def envC2 : Env := { baseEnv with
  psJsonRc := 1
  psTextLines := ["NAME STATUS", "Up"] }

/-- JSON `ps` fails; the text fallback sees a tabular line for the
`servers-page-server-1` container marked `Up`. -/
def envC2w : Env := { baseEnv with
  psJsonRc := 1
  psTextLines := ["NAME IMAGE STATUS",
                  "servers-page-server-1   servers-page-server   Up 10 seconds"] }

/-- Status reports `db-server` with the non-running state `Exited`. -/
def envC3b : Env := { baseEnv with
  psJsonLines := [JsonLine.object [("Service", "db-server"), ("State", "Exited")]] }

/-- Every command succeeds, but both `ps` forms fail, so the status mapping
is empty and the post-start service check fails. -/
def envC4 : Env := { baseEnv with
  psJsonRc := 1
  psTextRc := 1 }

/-- All five registered services are reported running, but every port probe
fails with a nonzero `connect_ex` code. -/
def envC5 : Env := { baseEnv with
  psJsonLines := [JsonLine.object [("Service", "page-server"), ("State", "Up")],
                  JsonLine.object [("Service", "api-server"), ("State", "Up")],
                  JsonLine.object [("Service", "db-server"), ("State", "running")],
                  JsonLine.object [("Service", "nginx"), ("State", "Up")],
                  JsonLine.object [("Service", "redis"), ("State", "Up")]]
  portResult := fun _ => PortResult.code 111 }

/-- The two pre-flight probes succeed but every other command fails. -/
def envC8 : Env := { baseEnv with
  proc := fun c =>
    if c = "docker --version" then ProcBehavior.runs 0 "" ""
    else if c = "docker info" then ProcBehavior.runs 0 "" ""
    else ProcBehavior.runs 1 "" "" }

/-- Every command succeeds and the log command produces two lines of
output. -/
def envC9w : Env := { baseEnv with
  proc := fun _ => ProcBehavior.runs 0 "line1\nline2" "" }

/-! ### Helper lemmas -/

theorem dlookup_dinsert_self (st : List (String × String)) (k v : String) :
    dlookup (dinsert st k v) k = some v := by
  induction st with
  | nil => simp [dinsert, dlookup]
  | cons p t ih =>
      by_cases h : p.1 = k
      · simp [dinsert, dlookup, h]
      · simp [dinsert, dlookup, h, ih]

theorem dlookup_dinsert_ne (st : List (String × String)) (k v q : String)
    (h : q ≠ k) : dlookup (dinsert st k v) q = dlookup st q := by
  induction st with
  | nil => simp [dinsert, dlookup, Ne.symm h]
  | cons p t ih =>
      by_cases hp : p.1 = k
      · simp [dinsert, dlookup, hp, Ne.symm h]
      · simp [dinsert, dlookup, hp, ih]

theorem dlookup_dinsert_or (st : List (String × String)) (k v q w : String)
    (h : dlookup (dinsert st k v) q = some w) :
    w = v ∨ dlookup st q = some w := by
  by_cases hq : q = k
  · subst hq
    rw [dlookup_dinsert_self] at h
    exact Or.inl (Option.some_injective _ h).symm
  · rw [dlookup_dinsert_ne st k v q hq] at h
    exact Or.inr h

/-- `textStep` skips a line with no whitespace tokens. -/
theorem textStep_none (st : List (String × String)) (line : String)
    (h : pySplit line = []) : textStep st line = st := by
  unfold textStep
  rw [h]

/-- `textStep` skips a line with a single whitespace token. -/
theorem textStep_one (st : List (String × String)) (line name : String)
    (h : pySplit line = [name]) : textStep st line = st := by
  unfold textStep
  rw [h]

/-- On a line with at least two tokens, `textStep` is the alias insertion
guarded by the running-word test. -/
theorem textStep_long (st : List (String × String)) (line name b : String)
    (bs : List String) (h : pySplit line = name :: b :: bs) :
    textStep st line =
      if lineUp line then dinsert st (aliasKey name) "Up" else st := by
  unfold textStep aliasKey
  rw [h]
  rcases hm : dlookup service_mapping name with _ | mapped <;> simp [hm]

theorem dlookup_textStep_up (st : List (String × String)) (l k : String)
    (h : dlookup st k = some "Up") : dlookup (textStep st l) k = some "Up" := by
  rcases hsp : pySplit l with _ | ⟨name, _ | ⟨b, bs⟩⟩
  · rw [textStep_none st l hsp]
    exact h
  · rw [textStep_one st l name hsp]
    exact h
  · rw [textStep_long st l name b bs hsp]
    by_cases hup : lineUp l = true
    · rw [if_pos hup]
      by_cases hk : k = aliasKey name
      · subst hk
        exact dlookup_dinsert_self st (aliasKey name) "Up"
      · rw [dlookup_dinsert_ne st (aliasKey name) "Up" k hk]
        exact h
    · rw [if_neg hup]
      exact h

theorem foldl_textStep_keep (lines : List String) (st : List (String × String))
    (k : String) (h : dlookup st k = some "Up") :
    dlookup (List.foldl textStep st lines) k = some "Up" := by
  induction lines generalizing st with
  | nil => simpa using h
  | cons l ls ih =>
      simp only [List.foldl_cons]
      exact ih (textStep st l) (dlookup_textStep_up st l k h)

theorem foldl_textStep_mem (lines : List String) (st : List (String × String))
    (line name b : String) (bs : List String)
    (hsp : pySplit line = name :: b :: bs) (hup : lineUp line = true) :
    line ∈ lines →
    dlookup (List.foldl textStep st lines) (aliasKey name) = some "Up" := by
  induction lines generalizing st with
  | nil => intro hmem; cases hmem
  | cons l ls ih =>
      intro hmem
      simp only [List.foldl_cons]
      rcases List.mem_cons.mp hmem with rfl | hmem2
      · apply foldl_textStep_keep
        rw [textStep_long st line name b bs hsp, if_pos hup]
        exact dlookup_dinsert_self st (aliasKey name) "Up"
      · exact ih (textStep st l) hmem2

/-- Every value the text fallback ever stores is `"Up"`. -/
theorem foldl_textStep_values (lines : List String)
    (st : List (String × String))
    (h : ∀ k v, dlookup st k = some v → v = "Up") :
    ∀ k v, dlookup (List.foldl textStep st lines) k = some v → v = "Up" := by
  induction lines generalizing st with
  | nil => simpa using h
  | cons l ls ih =>
      simp only [List.foldl_cons]
      apply ih
      intro k v hv
      rcases hsp : pySplit l with _ | ⟨name, _ | ⟨b, bs⟩⟩
      · rw [textStep_none st l hsp] at hv
        exact h k v hv
      · rw [textStep_one st l name hsp] at hv
        exact h k v hv
      · rw [textStep_long st l name b bs hsp] at hv
        by_cases hup : lineUp l = true
        · rw [if_pos hup] at hv
          rcases dlookup_dinsert_or st (aliasKey name) "Up" k v hv with hh | hh
          · exact hh
          · exact h k v hh
        · rw [if_neg hup] at hv
          exact h k v hv

theorem tbe_trace (env : Env) :
    (test_basic_environment env).2 = [Call.envCheck] := by
  unfold test_basic_environment
  by_cases h : env.filesOk <;> simp [h]

/-! ### Claims -/

/-- C1, counterexample.  The claim states that every line of the structured
status output is handled independently, so entries from lines after a bad
line survive.  In the code, a line whose text is valid JSON but not an
object (for example a bare number, or the whole-array form some orchestrator
versions emit) makes `container.get` raise `AttributeError`, which only the
handler outside the loop catches: the remaining lines are dropped.  On
`envC1` the claim-predicted mapping (computed by `jsonPassIndep`, the
claim-faithful per-line fold) contains `page-server -> Up` from the third
line, but `get_service_status` does not. -/
theorem C1_counterexample :
    dlookup (get_service_status envC1) "page-server" = none ∧
    dlookup (jsonPassIndep envC1.psJsonLines []) "page-server" = some "Up" := by
  constructor <;> decide

/-- C1, amended.  The structured pass handles each line independently —
skipping a JSON parse failure without aborting the others, an object line
with non-empty `Service` field contributing `Service -> State` — except that
a line parsing to valid non-object JSON aborts the pass, keeping the entries
accumulated so far; the plain-text fallback runs if and only if the
structured pass yields zero entries. -/
theorem C1_amended :
    (∀ (lines : List JsonLine) (st : List (String × String)),
        JsonLine.nonObject ∉ lines → jsonPass lines st = jsonPassIndep lines st) ∧
    (∀ (xs ys : List JsonLine) (st : List (String × String)),
        jsonPass (xs ++ JsonLine.nonObject :: ys) st = jsonPass xs st) ∧
    (∀ env : Env,
        (structuredStatus env ≠ [] → get_service_status env = structuredStatus env) ∧
        (structuredStatus env = [] → get_service_status env = textStatus env)) := by
  refine ⟨?_, ?_, ?_⟩
  · intro lines
    induction lines with
    | nil => intro st h; rfl
    | cons l ls ih =>
        intro st h
        have hl : JsonLine.nonObject ∉ ls := fun hm => h (List.mem_cons_of_mem _ hm)
        cases l with
        | blank => simpa [jsonPass, jsonPassIndep] using ih st hl
        | parseError => simpa [jsonPass, jsonPassIndep] using ih st hl
        | nonObject => exact absurd (List.mem_cons_self _ _) h
        | object fs => simpa [jsonPass, jsonPassIndep] using ih _ hl
  · intro xs
    induction xs with
    | nil => intro ys st; rfl
    | cons l ls ih =>
        intro ys st
        cases l with
        | blank => simpa [jsonPass] using ih ys st
        | parseError => simpa [jsonPass] using ih ys st
        | nonObject => rfl
        | object fs => simpa [jsonPass] using ih ys _
  · intro env
    constructor
    · intro h
      unfold get_service_status
      rw [if_neg h]
    · intro h
      unfold get_service_status
      rw [if_pos h]

/-- C1, witness for the amended theorem: on input with a parse-error line
and an object line (and no non-object line), the code pass and the
independent per-line pass agree. -/
theorem C1_amended_witness :
    jsonPass [JsonLine.parseError,
              JsonLine.object [("Service", "nginx"), ("State", "Up")]] [] =
      jsonPassIndep [JsonLine.parseError,
                     JsonLine.object [("Service", "nginx"), ("State", "Up")]] [] :=
  C1_amended.1 _ _ (by decide)

/-- C2, counterexample.  The claim quantifies over every non-header line,
but the code skips a line that splits into fewer than two whitespace
tokens.  The fallback input of `envC2` has the single-token non-header line
`Up`, which contains the substring `Up`: the claim-predicted handling
(`textStepSpec`, the claim-faithful per-line step with no token-count
guard) yields the entry `Up -> Up`, while `get_service_status` yields an
empty mapping. -/
theorem C2_counterexample :
    get_service_status envC2 = [] ∧
    (envC2.psTextLines.drop 1).foldl textStepSpec [] = [("Up", "Up")] := by
  constructor <;> decide

/-- C2, amended.  In the plain-text fallback, every non-header line that
splits into at least two whitespace tokens, with first token `name`, and
that contains any of the literal substrings `Up` / `Running` / `Started`
anywhere, contributes the entry `aliasKey name -> "Up"` to the resulting
mapping, where `aliasKey` translates the container name through
`service_mapping` and falls back to the name verbatim. -/
theorem C2_amended (env : Env) (line name b : String) (bs : List String)
    (hs : structuredStatus env = []) (hrc : env.psTextRc = 0)
    (hmem : line ∈ env.psTextLines.drop 1)
    (hsp : pySplit line = name :: b :: bs)
    (hup : lineUp line = true) :
    dlookup (get_service_status env) (aliasKey name) = some "Up" := by
  unfold get_service_status
  rw [if_pos hs]
  unfold textStatus
  rw [if_pos hrc]
  exact foldl_textStep_mem _ [] line name b bs hsp hup hmem

/-- C2, witness: the alias example from the claim.  A tabular line for
container `servers-page-server-1` containing `Up` yields
`page-server -> Up` via the alias table. -/
theorem C2_amended_witness :
    dlookup (get_service_status envC2w) (aliasKey "servers-page-server-1") =
        some "Up" ∧
    aliasKey "servers-page-server-1" = "page-server" :=
  ⟨C2_amended envC2w "servers-page-server-1   servers-page-server   Up 10 seconds"
      "servers-page-server-1" "servers-page-server" ["Up", "10", "seconds"]
      (by decide) (by decide) (by decide) (by decide) (by decide),
   by decide⟩

/-- C3, counterexample.  The claim says a service absent from the status
mapping and a service present with the non-running state `Exited` are
rendered identically.  They are not: `db-server` reported as `Exited`
renders with the failure marker and the raw state, while the absent
`db-server` renders with the pause marker and the fixed stopped label. -/
theorem C3_counterexample :
    (show_service_status envC3b)[2]? ≠ (show_service_status baseEnv)[2]? ∧
    (show_service_status envC3b)[2]? =
      some "❌ Database Server (PostgreSQL): Exited" ∧
    (show_service_status baseEnv)[2]? =
      some "⏸️ Database Server (PostgreSQL): 중지됨" := by
  refine ⟨by decide, by decide, by decide⟩

/-- C3, amended.  `show_service_status` renders every registered service
exactly once, in registry order, regardless of the status mapping; a
present service is rendered as running iff its state case-insensitively
contains `up` / `running` / `started`, and otherwise as not running — but a
present non-running service is rendered with its raw state while an absent
one is rendered with the fixed stopped label, so the two lines differ. -/
theorem C3_amended :
    (∀ env : Env, (show_service_status env).length = services.length) ∧
    (∀ env : Env, show_service_status env =
        [renderService (get_service_status env) "page-server" "Page Server (Next.js)",
         renderService (get_service_status env) "api-server" "API Server (FastAPI)",
         renderService (get_service_status env) "db-server" "Database Server (PostgreSQL)",
         renderService (get_service_status env) "nginx" "Nginx (Reverse Proxy)",
         renderService (get_service_status env) "redis" "Redis (Cache)"]) ∧
    (∀ st key disp state, dlookup st key = some state → isRunningState state = true →
        renderService st key disp = "✅ " ++ disp ++ ": " ++ state) ∧
    (∀ st key disp state, dlookup st key = some state → isRunningState state = false →
        renderService st key disp = "❌ " ++ disp ++ ": " ++ state) ∧
    (∀ st key disp, dlookup st key = none →
        renderService st key disp = "⏸️ " ++ disp ++ ": 중지됨") := by
  refine ⟨fun env => rfl, fun env => rfl, ?_, ?_, ?_⟩
  · intro st key disp state h hr
    unfold renderService
    rw [h]
    simp [hr]
  · intro st key disp state h hr
    unfold renderService
    rw [h]
    simp [hr]
  · intro st key disp h
    unfold renderService
    rw [h]

/-- C3, witness: a present `Exited` service renders with the failure marker
and raw state. -/
theorem C3_amended_witness :
    renderService [("db-server", "Exited")] "db-server" "DB" =
      "❌ " ++ "DB" ++ ": " ++ "Exited" :=
  C3_amended.2.2.2.1 _ _ _ _ (by decide) (by decide)

/-- C10: in the text fallback, every entry ever produced has exactly the
value `"Up"`; a line without any of the running words produces no entry at
all; a line with fewer than two whitespace tokens is ignored entirely. -/
theorem C10_fallback_values (env : Env) :
    (structuredStatus env = [] →
        ∀ k v, dlookup (get_service_status env) k = some v → v = "Up") ∧
    (∀ st line, lineUp line = false → textStep st line = st) ∧
    (∀ st line, (pySplit line).length < 2 → textStep st line = st) := by
  refine ⟨?_, ?_, ?_⟩
  · intro h k v hv
    unfold get_service_status at hv
    rw [if_pos h] at hv
    unfold textStatus at hv
    by_cases hrc : env.psTextRc = 0
    · rw [if_pos hrc] at hv
      refine foldl_textStep_values _ [] ?_ k v hv
      intro a w haw
      simp [dlookup] at haw
    · rw [if_neg hrc] at hv
      simp [dlookup] at hv
  · intro st line hup
    rcases hsp : pySplit line with _ | ⟨name, _ | ⟨b, bs⟩⟩
    · exact textStep_none st line hsp
    · exact textStep_one st line name hsp
    · rw [textStep_long st line name b bs hsp, if_neg]
      simp [hup]
  · intro st line hlen
    rcases hsp : pySplit line with _ | ⟨name, _ | ⟨b, bs⟩⟩
    · exact textStep_none st line hsp
    · exact textStep_one st line name hsp
    · rw [hsp] at hlen
      simp at hlen
      omega

/-- C10, witness: a stopped container line contributes nothing, and a
single-token line is ignored. -/
theorem C10_fallback_values_witness :
    textStep [] "servers-db-server-1  servers-db-server  Exited (1)" = [] ∧
    textStep [] "Up" = [] :=
  ⟨(C10_fallback_values baseEnv).2.1 [] _ (by decide),
   (C10_fallback_values baseEnv).2.2 [] _ (by decide)⟩

/-- Reduction of `run_single_service` when the environment check fails. -/
theorem run_single_env_fail (env : Env) (s : String)
    (h : (test_basic_environment env).1 = false) :
    run_single_service env s = (false, []) ∨
    run_single_service env s = (false, [Call.envCheck]) := by
  by_cases hreg : (services.map Prod.fst).contains s = true
  · right
    unfold run_single_service
    rw [if_pos hreg]
    simp [h, tbe_trace]
  · left
    unfold run_single_service
    rw [if_neg hreg]

/-- C4: both bring-up workflows sequence environment check, then build,
then start; a failed environment check aborts with `false` before any
build or start invocation; a failed build or start aborts with `false`;
and when environment check, build and start all succeed the workflow
returns `true` for every world, so the post-start service check cannot
change the result. -/
theorem C4_sequencing (env : Env) (s : String) :
    ((test_basic_environment env).1 = false →
        (run_all_services env).1 = false ∧
        (∀ c ∈ (run_all_services env).2, ∀ t, c ≠ Call.build t ∧ c ≠ Call.up t) ∧
        (run_single_service env s).1 = false ∧
        (∀ c ∈ (run_single_service env s).2, ∀ t, c ≠ Call.build t ∧ c ≠ Call.up t)) ∧
    ((build_service env "").1 = false → (run_all_services env).1 = false) ∧
    ((build_service env s).1 = false → (run_single_service env s).1 = false) ∧
    ((run_service env "").1 = false → (run_all_services env).1 = false) ∧
    ((run_service env s).1 = false → (run_single_service env s).1 = false) ∧
    ((test_basic_environment env).1 = true → (build_service env "").1 = true →
        (run_service env "").1 = true → (run_all_services env).1 = true) ∧
    ((services.map Prod.fst).contains s = true →
        (test_basic_environment env).1 = true →
        (build_service env s).1 = true → (run_service env s).1 = true →
        (run_single_service env s).1 = true) := by
  refine ⟨?_, ?_, ?_, ?_, ?_, ?_, ?_⟩
  · intro h
    have hall : run_all_services env = (false, [Call.envCheck]) := by
      simp [run_all_services, h, tbe_trace]
    refine ⟨by rw [hall], ?_, ?_, ?_⟩
    · intro c hc t
      rw [hall] at hc
      simp at hc
      subst hc
      exact ⟨by simp, by simp⟩
    · rcases run_single_env_fail env s h with h1 | h1 <;> rw [h1]
    · intro c hc t
      rcases run_single_env_fail env s h with h1 | h1 <;> rw [h1] at hc
      · simp at hc
      · simp at hc
        subst hc
        exact ⟨by simp, by simp⟩
  · intro h
    cases he : (test_basic_environment env).1 <;>
      simp [run_all_services, he, h]
  · intro h
    unfold run_single_service
    by_cases hreg : (services.map Prod.fst).contains s = true
    · rw [if_pos hreg]
      cases he : (test_basic_environment env).1 <;> simp [he, h]
    · rw [if_neg hreg]
  · intro h
    cases he : (test_basic_environment env).1 <;>
      cases hb : (build_service env "").1 <;>
        simp [run_all_services, he, hb, h]
  · intro h
    unfold run_single_service
    by_cases hreg : (services.map Prod.fst).contains s = true
    · rw [if_pos hreg]
      cases he : (test_basic_environment env).1 <;>
        cases hb : (build_service env s).1 <;> simp [he, hb, h]
    · rw [if_neg hreg]
  · intro h1 h2 h3
    simp [run_all_services, h1, h2, h3]
  · intro hreg h1 h2 h3
    unfold run_single_service
    rw [if_pos hreg]
    simp [h1, h2, h3]

/-- C4, witness: a world where every command succeeds but the post-start
service check fails (no service is reported running) still returns `true`
from `run_all_services`. -/
theorem C4_sequencing_witness :
    (run_all_services envC4).1 = true ∧ (test_services envC4).1 = false :=
  ⟨(C4_sequencing envC4 "page-server").2.2.2.2.2.1
      (by decide) (by decide) (by decide),
   by decide⟩

/-- C5: `test_services` returns `false` with no port probe at all as soon
as some registered service is not reported running; when all are running,
it probes exactly the five fixed ports in table order and returns `true`
regardless of the probe outcomes (which only appear in the trace). -/
theorem C5_test_services (env : Env) :
    (allServicesRunning env = false →
        (test_services env).1 = false ∧
        ∀ c ∈ (test_services env).2, ∀ p r, c ≠ Call.portProbe p r) ∧
    (allServicesRunning env = true →
        (test_services env).1 = true ∧
        (test_services env).2.filterMap portOf = [80, 5173, 8002, 15432, 16379]) := by
  constructor
  · intro h
    have h2 : test_services env = (false, [Call.status]) := by
      simp [test_services, h]
    refine ⟨by rw [h2], ?_⟩
    intro c hc p r
    rw [h2] at hc
    simp at hc
    subst hc
    simp
  · intro h
    constructor
    · simp [test_services, h]
    · simp [test_services, h, portTable, portOf]

/-- C5, witness: all five services reported running but every port probe
failing with a nonzero connect code still yields `true`. -/
theorem C5_test_services_witness :
    (test_services envC5).1 = true ∧
    (test_services envC5).2.filterMap portOf = [80, 5173, 8002, 15432, 16379] :=
  (C5_test_services envC5).2 (by decide)

/-- C6, counterexample.  The claim says an exception during spawning yields
exit code `-1` with empty-string output fields, and that a non-zero-exit
failure yields all three fields populated with strings.  In the code, the
exception handler returns `str(e)` — the exception message — as the third
field, and with `check=False` and no capture a completed process comes back
with Python `None` (here `none`) in both output fields. -/
theorem C6_counterexample :
    run_command (ProcBehavior.raises "boom") true false =
      (-1, some "", some "boom") ∧
    run_command (ProcBehavior.runs 1 "out" "err") false false =
      (1, none, none) := by
  constructor <;> decide

/-- C6, amended.  `run_command` always returns a full triple and never
raises: an exception during spawning yields `(-1, "", str(e))`; a process
that completes always has its exit code in the first field; a non-zero exit
with `check` enabled yields string fields with the empty string where
output was not captured; otherwise the output fields are the captured
strings when capturing, and `None` when not. -/
theorem C6_amended (b : ProcBehavior) (chk cap : Bool) :
    (∀ msg, b = ProcBehavior.raises msg →
        run_command b chk cap = (-1, some "", some msg)) ∧
    (∀ rc out err, b = ProcBehavior.runs rc out err →
        (run_command b chk cap).1 = rc ∧
        (chk = true → rc ≠ 0 →
            run_command b chk cap =
              (rc, some (if cap then out else ""),
                   some (if cap then err else ""))) ∧
        (chk = true → rc = 0 →
            run_command b chk cap =
              (rc, if cap then some out else none,
                   if cap then some err else none)) ∧
        (chk = false →
            run_command b chk cap =
              (rc, if cap then some out else none,
                   if cap then some err else none))) := by
  constructor
  · intro msg h
    subst h
    rfl
  · intro rc out err h
    subst h
    refine ⟨?_, ?_, ?_, ?_⟩
    · simp only [run_command]
      split <;> rfl
    · intro h1 h2
      subst h1
      have hb : (rc == 0) = false := beq_eq_false_iff_ne.mpr h2
      simp [run_command, hb]
    · intro h1 h2
      subst h1
      subst h2
      simp [run_command]
    · intro h1
      subst h1
      simp [run_command]

/-- C6, witness: a captured, checked, zero-exit run returns the exit code
and both captured strings. -/
theorem C6_amended_witness :
    run_command (ProcBehavior.runs 2 "a" "b") true true = (2, some "a", some "b") := by
  have h := ((C6_amended (ProcBehavior.runs 2 "a" "b") true true).2
    2 "a" "b" rfl).2.1 rfl (by decide)
  simpa using h

/-- C7, counterexample.  The claim says build/start/stop reject a key not
in the registry before shelling out.  The key `bogus` is not registered,
yet all three low-level operations invoke the orchestrator (one trace
entry) and return `true` when the tool exits 0. -/
theorem C7_counterexample :
    (services.map Prod.fst).contains "bogus" = false ∧
    (build_service baseEnv "bogus").1 = true ∧
    (build_service baseEnv "bogus").2 = [Call.build "bogus"] ∧
    (run_service baseEnv "bogus").1 = true ∧
    (stop_service baseEnv "bogus").1 = true := by
  refine ⟨by decide, by decide, by decide, by decide, by decide⟩

/-- C7, amended.  The low-level build/start/stop operations do not validate
the key: each always issues exactly its one orchestrator invocation, for
registered and unregistered keys alike; only the single-service workflow
validates, returning `false` with zero external invocations for every key
not in the registry. -/
theorem C7_amended (env : Env) (s : String) :
    (build_service env s).2 = [Call.build s] ∧
    (run_service env s).2 = [Call.up s] ∧
    (stop_service env s).2 = [Call.stop s] ∧
    ((services.map Prod.fst).contains s = false →
        run_single_service env s = (false, [])) := by
  refine ⟨rfl, rfl, rfl, ?_⟩
  intro h
  unfold run_single_service
  rw [if_neg (by rw [h]; exact Bool.false_ne_true)]

/-- C7, witness: the unregistered key `bogus` is rejected by the
single-service workflow with an empty trace. -/
theorem C7_amended_witness :
    run_single_service baseEnv "bogus" = (false, []) :=
  (C7_amended baseEnv "bogus").2.2.2 (by decide)

/-- C8: the process exit status is 1 iff one of the two pre-flight checks
fails (orchestrator unavailable or manifest missing), and 0 in every other
case, for every world and flag selection — so workflow-internal failures
never reach the exit code. -/
theorem C8_exit_code (env : Env) (args : Args) :
    ((main env args).1 = 1 ↔
        ¬(check_docker env = true ∧ check_compose_file env = true)) ∧
    ((main env args).1 = 0 ↔
        (check_docker env = true ∧ check_compose_file env = true)) := by
  cases hd : check_docker env <;> cases hc : check_compose_file env <;>
    simp [main, hd, hc]

/-- C8, witness: in a world where the pre-flight probes succeed but the
selected run-all workflow fails, the exit status is still 0. -/
theorem C8_exit_code_witness :
    (main envC8 { all := true }).1 = 0 ∧ (run_all_services envC8).1 = false :=
  ⟨((C8_exit_code envC8 { all := true }).2).mpr ⟨by decide, by decide⟩,
   by decide⟩

/-- C9, counterexample.  The claim says the error line is printed iff the
tool invocation failed.  In `baseEnv` the log invocation succeeds (exit
code 0) with empty output, and the error line is printed anyway. -/
theorem C9_counterexample :
    (logsResult baseEnv none).1 = 0 ∧
    logsErrorLine ∈ (show_logs baseEnv none).2 := by
  constructor <;> decide

/-- C9, amended.  `show_logs` requests the last 20 lines for the given
service, or for all services when no key is given; it prints the captured
output verbatim iff the invocation succeeded with non-empty output, and
prints the error line (plus the stderr diagnostic when non-empty) iff the
invocation failed or produced empty output. -/
theorem C9_amended (env : Env) (s : Option String) :
    (show_logs env s).1 = logsCmd env s ∧
    (∀ k, logsCmd env (some k) =
        "docker compose -f " ++ env.composeFile ++ " logs --tail=20 " ++ k) ∧
    (logsCmd env none =
        "docker compose -f " ++ env.composeFile ++ " logs --tail=20") ∧
    ((logsResult env s).1 = 0 → (logsResult env s).2.1.getD "" ≠ "" →
        (show_logs env s).2 = [logsHeader s, (logsResult env s).2.1.getD ""]) ∧
    (¬((logsResult env s).1 = 0 ∧ (logsResult env s).2.1.getD "" ≠ "") →
        (show_logs env s).2 =
          logsHeader s :: logsErrorLine ::
            (if (logsResult env s).2.2.getD "" = "" then []
             else ["오류: " ++ (logsResult env s).2.2.getD ""])) := by
  refine ⟨rfl, fun k => rfl, rfl, ?_, ?_⟩
  · intro h1 h2
    simp only [show_logs]
    rw [if_pos ⟨h1, h2⟩]
  · intro h
    simp only [show_logs]
    rw [if_neg h]
    by_cases he : (logsResult env s).2.2.getD "" = "" <;> simp [he]

/-- C9, witness: a successful invocation with non-empty output prints the
header and the captured output verbatim. -/
theorem C9_amended_witness :
    (show_logs envC9w none).2 = [logsHeader none, "line1\nline2"] :=
  ((C9_amended envC9w none).2.2.2.1 (by decide) (by decide)).trans (by decide)

end EnsureServices
